import Mathlib

/-!
# Token lifecycle of `controllers/authController.js`

A shallow embedding of the registration, authentication, session-issuing,
refresh and access-verification functions of `authController.js`, followed by
theorems about them.

Conventions of the embedding.

* JavaScript values that arrive in a JSON request body are values of `JsVal`
  (absent field, `null`, boolean, integer number, string).
* The libraries `jsonwebtoken` and `bcryptjs` are not part of the repository;
  the functions take them as the parameters `Jwt` and `Bcrypt`.
* The clock read by `jwt.sign` and `jwt.verify` is the explicit argument `now`
  (seconds).
* The database is threaded through every function as an explicit `Database`
  value; a function returns its result together with the database it leaves.
-/

namespace AuthController

deriving instance DecidableEq for Except

/-! ## JavaScript values -/

/-- A value of a field of a parsed JSON request body. `undefined` is an absent
field. Numbers are the integer-valued JSON numbers. -/
inductive JsVal where
  | undefined
  | null
  | bool (b : Bool)
  | num (n : Int)
  | str (s : String)
  deriving DecidableEq, Repr

/-- Number of UTF-16 code units of a character. -/
def utf16Units (c : Char) : Nat :=
  if c.toNat < 65536 then 1 else 2

/-- The `length` of a JavaScript string: its number of UTF-16 code units. -/
def jsLength (s : String) : Nat :=
  (s.toList.map utf16Units).sum

/-- Truthiness of a value (`!v` is its negation). -/
def JsVal.truthy : JsVal → Bool
  | .undefined => false
  | .null => false
  | .bool b => b
  | .num n => n != 0
  | .str s => s != ""

/-- The string a value is coerced to where a string is expected
(`RegExp.prototype.test` coerces its argument). -/
def JsVal.toJsString : JsVal → String
  | .undefined => "undefined"
  | .null => "null"
  | .bool true => "true"
  | .bool false => "false"
  | .num n => toString n
  | .str s => s

/-- Numeric value of a boolean. -/
def boolToNumber (b : Bool) : Int :=
  if b then 1 else 0

/-- Abstract equality `a == b` on request values. `stringToNumber` is the
conversion of a string to a number (`none` when the string is not an integer
numeral). -/
def looseEq (stringToNumber : String → Option Int) : JsVal → JsVal → Bool
  | .undefined, .undefined => true
  | .undefined, .null => true
  | .null, .undefined => true
  | .null, .null => true
  | .undefined, _ => false
  | .null, _ => false
  | _, .undefined => false
  | _, .null => false
  | .str a, .str b => a == b
  | .num a, .num b => a == b
  | .bool a, .bool b => a == b
  | .num a, .str b => stringToNumber b == some a
  | .str a, .num b => stringToNumber a == some b
  | .bool a, .num b => boolToNumber a == b
  | .num a, .bool b => a == boolToNumber b
  | .bool a, .str b => stringToNumber b == some (boolToNumber a)
  | .str a, .bool b => stringToNumber a == some (boolToNumber b)

/-! ## Regular expressions and `email_regex` -/

/-- Regular expressions over characters; a class is a list of inclusive
code-point ranges. -/
inductive Re where
  | none
  | eps
  | cls (ranges : List (Nat × Nat))
  | seq (a b : Re)
  | alt (a b : Re)
  | star (a : Re)
  deriving Repr

/-- Membership of a character in a class. -/
def inClass (ranges : List (Nat × Nat)) (c : Char) : Bool :=
  ranges.any (fun r => r.1 ≤ c.toNat && c.toNat ≤ r.2)

/-- Whether the expression matches the empty string. -/
def Re.nullable : Re → Bool
  | .none => false
  | .eps => true
  | .cls _ => false
  | .seq a b => a.nullable && b.nullable
  | .alt a b => a.nullable || b.nullable
  | .star _ => true

/-- Sequence that absorbs the empty language. -/
def Re.mkSeq : Re → Re → Re
  | .none, _ => .none
  | _, .none => .none
  | .eps, b => b
  | a, b => .seq a b

/-- Alternation that drops the empty language. -/
def Re.mkAlt : Re → Re → Re
  | .none, b => b
  | a, .none => a
  | a, b => .alt a b

/-- Derivative of an expression by one character. -/
def Re.deriv (c : Char) : Re → Re
  | .none => .none
  | .eps => .none
  | .cls rs => if inClass rs c then .eps else .none
  | .seq a b =>
    if a.nullable then Re.mkAlt (Re.mkSeq (a.deriv c) b) (b.deriv c)
    else Re.mkSeq (a.deriv c) b
  | .alt a b => Re.mkAlt (a.deriv c) (b.deriv c)
  | .star a => Re.mkSeq (a.deriv c) (.star a)

/-- Whole-string match (the pattern is anchored by `^` and `$`). -/
def Re.test (r : Re) (s : String) : Bool :=
  (s.toList.foldl (fun acc c => acc.deriv c) r).nullable

/-- One or more repetitions. -/
def Re.plus (a : Re) : Re := .seq a (.star a)

/-- Zero or one occurrence. -/
def Re.opt (a : Re) : Re := .alt .eps a

/-- A single literal character. -/
def Re.chr (c : Char) : Re := .cls [(c.toNat, c.toNat)]

/-- The class `[a-z0-9!#$%&'*+/=?^_{|}~-]` together with the grave accent: the
atom characters of the local part. -/
def atext : Re :=
  .cls [(97, 122), (48, 57), (33, 33), (35, 39), (42, 43), (47, 47), (61, 61),
        (63, 63), (94, 96), (123, 126), (45, 45)]

/-- The class `[a-z0-9]`. -/
def alnum : Re := .cls [(97, 122), (48, 57)]

/-- The class `[a-z0-9-]`. -/
def alnumDash : Re := .cls [(97, 122), (48, 57), (45, 45)]

/-- The group `\\[\x01-\x09\x0b\x0c\x0e-\x7f]`: a backslash and an escaped character. -/
def quotedPair : Re :=
  .seq (Re.chr (Char.ofNat 92)) (.cls [(1, 9), (11, 12), (14, 127)])

/-- The quoted-string form of the local part. -/
def quotedLocal : Re :=
  .seq (Re.chr (Char.ofNat 34))
    (.seq (.star (.alt (.cls [(1, 8), (11, 12), (14, 31), (33, 33), (35, 91), (93, 127)])
                      quotedPair))
          (Re.chr (Char.ofNat 34)))

/-- The dot-atom form of the local part. -/
def dotAtom : Re :=
  .seq atext.plus (.star (.seq (Re.chr (Char.ofNat 46)) atext.plus))

/-- The group `[a-z0-9](?:[a-z0-9-]*[a-z0-9])?`: one domain label. -/
def label : Re :=
  .seq alnum (Re.opt (.seq (.star alnumDash) alnum))

/-- The group `(?:label\.)+label`: a dotted host name. -/
def hostName : Re :=
  .seq (Re.plus (.seq label (Re.chr (Char.ofNat 46)))) label

/-- The class `[0-9]`. -/
def digit : Re := .cls [(48, 57)]

/-- The group `25[0-5]|2[0-4][0-9]|[01]?[0-9][0-9]?`: one octet of an address literal. -/
def octet : Re :=
  .alt (.seq (Re.chr (Char.ofNat 50)) (.seq (Re.chr (Char.ofNat 53)) (.cls [(48, 53)])))
    (.alt (.seq (Re.chr (Char.ofNat 50)) (.seq (.cls [(48, 52)]) digit))
      (.seq (Re.opt (.cls [(48, 49)])) (.seq digit (Re.opt digit))))

/-- The general-address-literal alternative of the last component. -/
def generalLiteral : Re :=
  .seq (.star alnumDash)
    (.seq alnum
      (.seq (Re.chr (Char.ofNat 58))
        (Re.plus (.alt (.cls [(1, 8), (11, 12), (14, 31), (33, 90), (83, 127)])
                       quotedPair))))

/-- The group `\[(?:octet\.){3}(?:octet|general)\]`: a bracketed address literal. -/
def addressLiteral : Re :=
  let od : Re := .seq octet (Re.chr (Char.ofNat 46))
  .seq (Re.chr (Char.ofNat 91))
    (.seq od (.seq od (.seq od
      (.seq (.alt octet generalLiteral) (Re.chr (Char.ofNat 93))))))

/-- The constant `email_regex`. -/
def email_regex : Re :=
  .seq (.alt dotAtom quotedLocal)
    (.seq (Re.chr (Char.ofNat 64)) (.alt hostName addressLiteral))

/-- The call `email_regex.test(v)`: the argument is coerced to a string. -/
def emailTest (v : JsVal) : Bool :=
  email_regex.test v.toJsString

/-! ## Responses -/

/-- The object `{ id, email }` that is signed into tokens and returned as the
identity of a user. -/
structure UserPayload where
  id : Nat
  email : JsVal
  deriving DecidableEq, Repr

/-- The `message` of a response: a text or a user identity. -/
inductive Message where
  | text (s : String)
  | user (u : UserPayload)
  deriving DecidableEq, Repr

/-- The JSON object sent to the client. The token fields are absent unless a
handler sets them. -/
structure ResponseObj where
  success : Bool
  message : Message
  accessToken : Option String
  refreshToken : Option String
  deriving DecidableEq, Repr

/-- Modelled from the spec: `responseObj` of `utils/response`, which is not
among the sources. It builds the result envelope from a success flag and a
message. -/
def responseObj (success : Bool) (message : Message) : ResponseObj :=
  { success := success, message := message, accessToken := none, refreshToken := none }

/-- What a middleware does with the response object `res` (or with `next`). -/
inductive HttpResponse where
  | json (status : Nat) (body : ResponseObj)
  | sendStatus (status : Nat)
  | redirect (status : Nat) (location : String)
  | next (user : UserPayload)
  deriving DecidableEq, Repr

/-! ## The database -/

/-- The value stored in the `password` column. `tryRegister` stores the hash,
or, when hashing was rejected, the response object its `catch` handler
returned. -/
inductive PasswordValue where
  | hash (h : String)
  | failureObject
  deriving DecidableEq, Repr

/-- A row of the users table. -/
structure User where
  id : Nat
  email : JsVal
  password : PasswordValue
  deriving DecidableEq, Repr

/-- A row of the refresh table. -/
structure RefreshRow where
  userId : Nat
  refreshToken : String
  deriving DecidableEq, Repr

/-- The two tables of `dbController`. -/
structure Database where
  usersTable : List User
  refreshTable : List RefreshRow
  deriving DecidableEq, Repr

/-- The object `{ email, password }` handed to `usersTable.add`. -/
structure UserEntry where
  email : JsVal
  password : PasswordValue
  deriving DecidableEq, Repr

/-- Modelled from the spec: `usersTable.get('id', id)` of `dbController`, which
is not among the sources. The user record with that id, if any. -/
def usersTable_getById (db : Database) (id : Nat) : Option User :=
  db.usersTable.find? (fun u => u.id == id)

/-- Modelled from the spec: `usersTable.get('email', email)` of `dbController`.
The user record with that email (compared as stored), if any. -/
def usersTable_getByEmail (db : Database) (email : JsVal) : Option User :=
  db.usersTable.find? (fun u => u.email == email)

/-- Modelled from the spec: the id the store assigns to a new user, one more
than the largest id in use. -/
def nextUserId (db : Database) : Nat :=
  (db.usersTable.map (fun u => u.id)).foldl max 0 + 1

/-- Modelled from the spec: `usersTable.add(entry)` of `dbController`. Emails
are unique: the call throws when a user with the same email exists, otherwise
it inserts the record under a store-assigned id and returns the identity
`{ id, email }` of the created user. -/
def usersTable_add (db : Database) (entry : UserEntry) :
    Except String (UserPayload × Database) :=
  match usersTable_getByEmail db entry.email with
  | some _ => .error "UNIQUE constraint failed: users.email"
  | none =>
    let id := nextUserId db
    .ok ({ id := id, email := entry.email },
         { db with usersTable :=
             db.usersTable ++ [{ id := id, email := entry.email, password := entry.password }] })

/-- Modelled from the spec: `refreshTable.get('userId', id)` of `dbController`.
The refresh session stored for that user, if any. -/
def refreshTable_get (db : Database) (userId : Nat) : Option RefreshRow :=
  db.refreshTable.find? (fun r => r.userId == userId)

/-- Modelled from the spec: `refreshTable.add(userId, token)` of
`dbController`. It persists the row `{ userId, token }`. -/
def refreshTable_add (db : Database) (userId : Nat) (token : String) : Database :=
  { db with refreshTable := db.refreshTable ++ [{ userId := userId, refreshToken := token }] }

/-- Modelled from the spec: `refreshTable.deleteById(id)` of `dbController`. It
deletes any refresh session of that user and does nothing if there is none. -/
def refreshTable_deleteById (db : Database) (userId : Nat) : Database :=
  { db with refreshTable := db.refreshTable.filter (fun r => r.userId != userId) }

/-- Modelled from the spec: `refreshTable.update(token, newToken)` of
`dbController`. It replaces the stored token text `token` by `newToken` in
place, adding no row. -/
def refreshTable_update (db : Database) (token : JsVal) (newToken : String) : Database :=
  { db with refreshTable := db.refreshTable.map (fun r =>
      if JsVal.str r.refreshToken = token then { r with refreshToken := newToken } else r) }

/-! ## External libraries, runtime and configuration -/

/-- The payload `jwt.verify` hands back. The controller reads only its `user`
property, which is absent when the signed object had none. -/
structure Decoded where
  user : Option UserPayload
  deriving DecidableEq, Repr

/-- The library `jsonwebtoken`.
`sign payload secret expiresIn now` is `jwt.sign({ user: payload }, secret,
{ expiresIn })` evaluated at clock second `now`.
`verify token secret now` is `jwt.verify(token, secret)` at clock second `now`:
the decoded payload, or the `message` of the error it raises (malformed token,
bad signature, expired token, token that is not a string). -/
structure Jwt where
  sign : UserPayload → String → Nat → Nat → String
  verify : JsVal → String → Nat → Except String Decoded

/-- The library `bcryptjs`. Each promise either resolves (`ok`) or is rejected
with an error (`error`). -/
structure Bcrypt where
  genSalt : Nat → Except String String
  hash : JsVal → String → Except String String
  compare : JsVal → PasswordValue → Except String Bool

/-- The JavaScript engine: the string-to-number conversion used by `==`, and
the message of the `TypeError` raised when the named property is read from
`null` or `undefined`. -/
structure Runtime where
  stringToNumber : String → Option Int
  typeErrorMessage : String → String

/-- The variables read from `process.env`; the lifetimes are in seconds. -/
structure Env where
  SECRET : String
  ACCESS_TOKEN_LIFE : Nat
  REFRESH_TOKEN_LIFE : Nat

/-- Everything the controller functions close over. -/
structure Ctx where
  rt : Runtime
  jwt : Jwt
  bcrypt : Bcrypt
  env : Env

/-! ## Request bodies -/

/-- The body of `POST /register`. -/
structure RegisterBody where
  email : JsVal
  password : JsVal
  passwordConfirmation : JsVal
  deriving DecidableEq, Repr

/-- The body of `POST /login`. -/
structure LoginBody where
  email : JsVal
  password : JsVal
  deriving DecidableEq, Repr

/-- The body of `POST /refresh-token`. -/
structure RefreshBody where
  refreshToken : JsVal
  deriving DecidableEq, Repr

/-! ## The controller -/

/-- The expression `user.password.length < 8`: reading `length` from `null` or
`undefined` throws, a string has its length, and any other value has no
`length`, so that the comparison with 8 is false. -/
def passwordTooShort (rt : Runtime) : JsVal → Except String Bool
  | .undefined => .error (rt.typeErrorMessage "length")
  | .null => .error (rt.typeErrorMessage "length")
  | .str s => .ok (decide (jsLength s < 8))
  | .bool _ => .ok false
  | .num _ => .ok false

/-- The function `getAccessToken`. -/
def getAccessToken (ctx : Ctx) (now : Nat) (payload : UserPayload) : String :=
  ctx.jwt.sign payload ctx.env.SECRET ctx.env.ACCESS_TOKEN_LIFE now

/-- The function `getRefreshToken`: deletes the sessions of the user, signs a
refresh token and stores it. -/
def getRefreshToken (ctx : Ctx) (now : Nat) (db : Database) (payload : UserPayload) :
    String × Database :=
  let db1 := refreshTable_deleteById db payload.id
  let refreshToken := ctx.jwt.sign payload ctx.env.SECRET ctx.env.REFRESH_TOKEN_LIFE now
  (refreshToken, refreshTable_add db1 payload.id refreshToken)

/-- The value of `await bcrypt.hash(...).catch(...)`: the hash, or, when the
promise is rejected, the response object the `catch` handler returns. -/
def hashOrCaught : Except String String → PasswordValue
  | .ok h => .hash h
  | .error _ => .failureObject

/-- The async function `tryRegister`. The first component is the value the
promise resolves with (`ok`) or the error it is rejected with (`error`); the
second is the database afterwards. -/
def tryRegister (ctx : Ctx) (db : Database) (user : RegisterBody) :
    Except String ResponseObj × Database :=
  if user.email = .undefined ∨ user.password = .undefined
      ∨ user.passwordConfirmation = .undefined then
    (.ok (responseObj false (.text "API Error - expected fields are undefined!")), db)
  else if !emailTest user.email then
    (.ok (responseObj false (.text "Invalid email format!")), db)
  else
    match passwordTooShort ctx.rt user.password with
    | .error e => (.error e, db)
    | .ok true =>
      (.ok (responseObj false (.text "Password must be at least 8 characters long!")), db)
    | .ok false =>
      if !looseEq ctx.rt.stringToNumber user.password user.passwordConfirmation then
        (.ok (responseObj false (.text "Passwords do not match!")), db)
      else
        match ctx.bcrypt.genSalt 10 with
        | .error e => (.error e, db)
        | .ok salt =>
          let passwordHash := hashOrCaught (ctx.bcrypt.hash user.password salt)
          match usersTable_add db { email := user.email, password := passwordHash } with
          | .ok (addedUser, db1) => (.ok (responseObj true (.user addedUser)), db1)
          | .error _ => (.ok (responseObj false (.text "Email already exists!")), db)

/-- The async function `tryAuthenticate`. A rejected `bcrypt.compare` is
replaced, by its `catch` handler, with a response object, which is truthy. -/
def tryAuthenticate (ctx : Ctx) (db : Database) (user : LoginBody) : ResponseObj :=
  if user.email = .undefined ∨ user.password = .undefined then
    responseObj false (.text "API Error - expected fields are undefined!")
  else
    match usersTable_getByEmail db user.email with
    | some userFromDb =>
      let passwordMatches : Bool :=
        match ctx.bcrypt.compare user.password userFromDb.password with
        | .ok b => b
        | .error _ => true
      if passwordMatches then
        responseObj true (.user { id := userFromDb.id, email := userFromDb.email })
      else
        responseObj false (.text "Email and/or password is incorrect!")
    | none => responseObj false (.text "Email and/or password is incorrect!")

/-- The middleware `register`. -/
def register (ctx : Ctx) (db : Database) (body : RegisterBody) : HttpResponse × Database :=
  match tryRegister ctx db body with
  | (.ok response, db1) =>
    if response.success then (.redirect 307 "/api/login", db1)
    else (.json 200 response, db1)
  | (.error _, db1) => (.sendStatus 501, db1)

/-- The middleware `login`. A successful result of `tryAuthenticate` always
carries an identity as message, so the branch for a text message is never
taken. -/
def login (ctx : Ctx) (now : Nat) (db : Database) (body : LoginBody) :
    HttpResponse × Database :=
  let response := tryAuthenticate ctx db body
  if response.success then
    match response.message with
    | .user payload =>
      let accessToken := getAccessToken ctx now payload
      let (refreshToken, db1) := getRefreshToken ctx now db payload
      (.json 200 { response with accessToken := some accessToken,
                                 refreshToken := some refreshToken }, db1)
    | .text _ => (.sendStatus 501, db)
  else
    (.json 200 response, db)

/-- The middleware `logout`; `user` is `req.user`, set by `authenticateToken`. -/
def logout (db : Database) (user : UserPayload) : HttpResponse × Database :=
  (.json 200 (responseObj true (.text "Logged out successfully!")),
   refreshTable_deleteById db user.id)

/-- The checks of `refreshToken` between `try` and `catch`: the user the
request may be refreshed for, or the message of the error thrown. -/
def refreshChecks (ctx : Ctx) (now : Nat) (db : Database) (token : JsVal) :
    Except String User :=
  match ctx.jwt.verify token ctx.env.SECRET now with
  | .error m => .error m
  | .ok decoded =>
    match decoded.user with
    | none => .error (ctx.rt.typeErrorMessage "id")
    | some payload =>
      match usersTable_getById db payload.id with
      | none => .error "Access is forbidden"
      | some user =>
        match refreshTable_get db user.id with
        | none => .error "Access is forbidden"
        | some existingRefreshToken =>
          if JsVal.str existingRefreshToken.refreshToken ≠ token then
            .error "Refresh token is wrong"
          else .ok user

/-- The middleware `refreshToken`. -/
def refreshToken (ctx : Ctx) (now : Nat) (db : Database) (body : RefreshBody) :
    HttpResponse × Database :=
  let token := body.refreshToken
  if !token.truthy then
    (.json 403 (responseObj false (.text "Access is forbidden.")), db)
  else
    match refreshChecks ctx now db token with
    | .error message => (.json 403 (responseObj false (.text message)), db)
    | .ok user =>
      let payload : UserPayload := { id := user.id, email := user.email }
      let newRefreshToken :=
        ctx.jwt.sign payload ctx.env.SECRET ctx.env.REFRESH_TOKEN_LIFE now
      let newAccessToken := getAccessToken ctx now payload
      let db1 := refreshTable_update db token newRefreshToken
      (.json 200 { responseObj true (.text "") with
                     accessToken := some newAccessToken,
                     refreshToken := some newRefreshToken }, db1)

/-- The expression `token.slice(7, token.length)`. Header values reach the
handler decoded one character per code unit, so the index counts characters. -/
def slice7 (token : String) : String :=
  String.mk (token.toList.drop 7)

/-- The function `verifyToken`: the promise resolves with a user (`ok`) or is
rejected with a message (`error`). -/
def verifyToken (ctx : Ctx) (now : Nat) (token : String) : Except String UserPayload :=
  if !("Bearer".toList.isPrefixOf token.toList) then
    .error "Token is invalid"
  else
    match ctx.jwt.verify (.str (slice7 token)) ctx.env.SECRET now with
    | .error m => .error m
    | .ok decoded =>
      match decoded.user with
      | none => .error "Token is invalid"
      | some user => .ok user

/-- The middleware `authenticateToken`; `authHeader` is
`req.headers.authorization`, absent when the header is not sent. -/
def authenticateToken (ctx : Ctx) (now : Nat) (authHeader : Option String) : HttpResponse :=
  match authHeader with
  | none => .json 401 (responseObj false (.text "Token is invalid"))
  | some h =>
    if h = "" then .json 401 (responseObj false (.text "Token is invalid"))
    else
      match verifyToken ctx now h with
      | .ok user => .next user
      | .error err => .json 401 (responseObj false (.text err))

/-! ## A concrete instance of the parameters

A small token codec, password hasher and runtime on which the functions can be
evaluated. The codec writes a token as the issue time, the expiry time and the
user id in unary, followed by the secret and the email, separated by dots; like
`jsonwebtoken` it is deterministic, embeds the issue time, and reports a
malformed token, a bad signature and an expired token with different messages.
-/

/-- The separator of the fields of a token. -/
def dot : Char := Char.ofNat 46

/-- Counts the leading occurrences of `c` and returns the rest. -/
def takeRun (c : Char) : List Char → Nat × List Char
  | [] => (0, [])
  | x :: xs => if x = c then ((takeRun c xs).1 + 1, (takeRun c xs).2) else (0, x :: xs)

/-- Removes a leading separator. -/
def expectDot : List Char → Option (List Char)
  | [] => none
  | x :: xs => if x = dot then some xs else none

/-- Splits at the first separator. -/
def splitDot : List Char → Option (List Char × List Char)
  | [] => none
  | x :: xs =>
    if x = dot then some ([], xs)
    else match splitDot xs with
      | some (a, b) => some (x :: a, b)
      | none => none

/-- Signing of the concrete codec. -/
def demoSign (payload : UserPayload) (secret : String) (expiresIn now : Nat) : String :=
  String.mk (List.replicate now 'i' ++ dot :: (List.replicate (now + expiresIn) 'e'
    ++ dot :: (List.replicate payload.id 'u'
    ++ dot :: (secret.toList ++ dot :: payload.email.toJsString.toList))))

/-- Verification of the concrete codec on the characters of a token. -/
def demoVerifyChars (cs : List Char) (secret : String) (now : Nat) : Except String Decoded :=
  match expectDot (takeRun 'i' cs).2 with
  | none => .error "jwt malformed"
  | some r2 =>
    match expectDot (takeRun 'e' r2).2 with
    | none => .error "jwt malformed"
    | some r4 =>
      match expectDot (takeRun 'u' r4).2 with
      | none => .error "jwt malformed"
      | some r6 =>
        match splitDot r6 with
        | none => .error "jwt malformed"
        | some (sec, mail) =>
          if String.mk sec ≠ secret then .error "invalid signature"
          else if (takeRun 'e' r2).1 ≤ now then .error "jwt expired"
          else .ok { user := some { id := (takeRun 'u' r4).1,
                                     email := .str (String.mk mail) } }

/-- Verification of the concrete codec. -/
def demoVerify (token : JsVal) (secret : String) (now : Nat) : Except String Decoded :=
  match token with
  | .str t => demoVerifyChars t.toList secret now
  | _ => .error "jwt must be a string"

/-- The concrete codec. -/
def demoJwt : Jwt :=
  { sign := demoSign, verify := demoVerify }

/-- The concrete hasher: it rejects a password that is not a string, as
`bcryptjs` does. -/
def demoBcrypt : Bcrypt :=
  { genSalt := fun _ => .ok "salt"
    hash := fun s salt =>
      match s with
      | .str p => .ok (salt ++ "$" ++ p)
      | _ => .error "Illegal arguments"
    compare := fun s h =>
      match s, h with
      | .str p, .hash stored => .ok (stored == "salt$" ++ p)
      | _, _ => .error "Illegal arguments" }

/-- The concrete runtime. -/
def demoRuntime : Runtime :=
  { stringToNumber := fun s => s.toInt?
    typeErrorMessage := fun property => "Cannot read property " ++ property }

/-- The concrete configuration: access tokens live 5 seconds, refresh tokens 9. -/
def demoEnv : Env :=
  { SECRET := "k", ACCESS_TOKEN_LIFE := 5, REFRESH_TOKEN_LIFE := 9 }

/-- The concrete context. -/
def demoCtx : Ctx :=
  { rt := demoRuntime, jwt := demoJwt, bcrypt := demoBcrypt, env := demoEnv }

/-- A database with one registered user and no session. -/
def oneUser : Database :=
  { usersTable := [{ id := 1, email := .str "a@x.com", password := .hash "salt$longpassword1" }]
    refreshTable := [] }

/-- The identity of the user of `oneUser`. -/
def alice : UserPayload := { id := 1, email := .str "a@x.com" }

/-- The database after the user of `oneUser` logged in at second 1. -/
def loggedIn : Database :=
  (getRefreshToken demoCtx 1 oneUser alice).2

/-- The refresh token issued to the user of `oneUser` at second 1. -/
def firstRefreshToken : String :=
  (getRefreshToken demoCtx 1 oneUser alice).1

/-! ## Sequences of requests -/

/-- An operation on the store: one of the middlewares, or a direct call of
`getRefreshToken`. -/
inductive Request where
  | register (body : RegisterBody)
  | login (body : LoginBody)
  | issue (payload : UserPayload)
  | refresh (body : RefreshBody)
  | logout (user : UserPayload)
  deriving DecidableEq, Repr

/-- The database after one operation handled at second `now`. -/
def handle (ctx : Ctx) (db : Database) (now : Nat) : Request → Database
  | .register body => (register ctx db body).2
  | .login body => (login ctx now db body).2
  | .issue payload => (getRefreshToken ctx now db payload).2
  | .refresh body => (refreshToken ctx now db body).2
  | .logout user => (logout db user).2

/-- The database after a sequence of operations, each with its clock second. -/
def run (ctx : Ctx) (db : Database) (trace : List (Nat × Request)) : Database :=
  trace.foldl (fun d step => handle ctx d step.1 step.2) db

/-- The refresh sessions stored for a user id. -/
def sessionsOf (db : Database) (userId : Nat) : List RefreshRow :=
  db.refreshTable.filter (fun r => r.userId == userId)



/-! ## Lemmas on the refresh flow -/

/-- The checks of `refreshToken` pass exactly when the token verifies, its
subject is a stored user and the session stored for that user holds the very
text presented. -/
theorem refreshChecks_ok_iff (ctx : Ctx) (now : Nat) (db : Database) (token : JsVal)
    (user : User) :
    refreshChecks ctx now db token = .ok user ↔
      ∃ payload row,
        ctx.jwt.verify token ctx.env.SECRET now = .ok ⟨some payload⟩ ∧
        usersTable_getById db payload.id = some user ∧
        refreshTable_get db user.id = some row ∧
        JsVal.str row.refreshToken = token := by
  unfold refreshChecks
  constructor
  · intro h
    cases hv : ctx.jwt.verify token ctx.env.SECRET now with
    | error m => simp [hv] at h
    | ok decoded =>
      obtain ⟨du⟩ := decoded
      cases du with
      | none => simp [hv] at h
      | some payload =>
        cases hu : usersTable_getById db payload.id with
        | none => simp [hv, hu] at h
        | some u =>
          cases hr : refreshTable_get db u.id with
          | none => simp [hv, hu, hr] at h
          | some row =>
            simp only [hv, hu, hr] at h
            by_cases hne : JsVal.str row.refreshToken ≠ token
            · simp [hne] at h
            · simp only [hne, if_false] at h
              have hEq : u = user := by injection h
              subst hEq
              exact ⟨payload, row, rfl, hu, hr, not_not.mp hne⟩
  · rintro ⟨payload, row, hv, hu, hr, hEq⟩
    simp [hv, hu, hr, hEq]

/-- A request without a token is answered 403 and leaves the database alone. -/
theorem refreshToken_of_falsy (ctx : Ctx) (now : Nat) (db : Database) (body : RefreshBody)
    (h : body.refreshToken.truthy = false) :
    refreshToken ctx now db body
      = (.json 403 (responseObj false (.text "Access is forbidden.")), db) := by
  simp [refreshToken, h]

/-- A request whose checks throw is answered 403 with the message of the error
and leaves the database alone. -/
theorem refreshToken_of_error (ctx : Ctx) (now : Nat) (db : Database) (body : RefreshBody)
    (m : String) (ht : body.refreshToken.truthy = true)
    (h : refreshChecks ctx now db body.refreshToken = .error m) :
    refreshToken ctx now db body = (.json 403 (responseObj false (.text m)), db) := by
  simp [refreshToken, ht, h]

/-- A request whose checks pass is answered with a pair of tokens signed at the
current second, and the presented text is replaced in the store. -/
theorem refreshToken_of_ok (ctx : Ctx) (now : Nat) (db : Database) (body : RefreshBody)
    (user : User) (ht : body.refreshToken.truthy = true)
    (h : refreshChecks ctx now db body.refreshToken = .ok user) :
    refreshToken ctx now db body =
      (.json 200
        { success := true, message := .text "",
          accessToken := some (getAccessToken ctx now ⟨user.id, user.email⟩),
          refreshToken := some (ctx.jwt.sign ⟨user.id, user.email⟩ ctx.env.SECRET
                                  ctx.env.REFRESH_TOKEN_LIFE now) },
       refreshTable_update db body.refreshToken
        (ctx.jwt.sign ⟨user.id, user.email⟩ ctx.env.SECRET ctx.env.REFRESH_TOKEN_LIFE now)) := by
  simp [refreshToken, ht, h, responseObj]

/-- Every answer of `refreshToken` is of one of two shapes: a rejection 403 that
carries no token and leaves the database alone, or a 200 that is produced by
passed checks. -/
theorem refreshToken_shape (ctx : Ctx) (now : Nat) (db : Database) (body : RefreshBody) :
    (∃ m, refreshToken ctx now db body = (.json 403 (responseObj false (.text m)), db)) ∨
    (∃ user, body.refreshToken.truthy = true ∧
      refreshChecks ctx now db body.refreshToken = .ok user ∧
      refreshToken ctx now db body =
        (.json 200
          { success := true, message := .text "",
            accessToken := some (getAccessToken ctx now ⟨user.id, user.email⟩),
            refreshToken := some (ctx.jwt.sign ⟨user.id, user.email⟩ ctx.env.SECRET
                                    ctx.env.REFRESH_TOKEN_LIFE now) },
         refreshTable_update db body.refreshToken
          (ctx.jwt.sign ⟨user.id, user.email⟩ ctx.env.SECRET
            ctx.env.REFRESH_TOKEN_LIFE now))) := by
  cases ht : body.refreshToken.truthy with
  | false => exact Or.inl ⟨_, refreshToken_of_falsy ctx now db body ht⟩
  | true =>
    cases h : refreshChecks ctx now db body.refreshToken with
    | error m => exact Or.inl ⟨m, refreshToken_of_error ctx now db body m ht h⟩
    | ok user => exact Or.inr ⟨user, rfl, rfl, refreshToken_of_ok ctx now db body user ht h⟩


/-- Replacing a token text does not change which row is found for a user: the
row found afterwards is the image of the row found before. -/
theorem refreshTable_get_update (db : Database) (token : JsVal) (newToken : String)
    (userId : Nat) :
    refreshTable_get (refreshTable_update db token newToken) userId =
      (refreshTable_get db userId).map (fun r =>
        if JsVal.str r.refreshToken = token then { r with refreshToken := newToken } else r) := by
  unfold refreshTable_get refreshTable_update
  simp only
  induction db.refreshTable with
  | nil => rfl
  | cons r rs ih =>
    by_cases hu : r.userId = userId
    · by_cases hr : JsVal.str r.refreshToken = token
      · simp [List.find?, hr, hu]
      · simp [List.find?, hr, hu]
    · have hb : (r.userId == userId) = false := by simp [hu]
      by_cases hr : JsVal.str r.refreshToken = token
      · simp only [List.map, List.find?, hr, if_true, hb, ih]
      · simp only [List.map, List.find?, hr, if_false, hb, ih]

/-- The concrete codec embeds the issue time: equal token texts were signed at
the same second. -/
theorem demoSign_stamped (p : UserPayload) (s : String) (l n : Nat)
    (p' : UserPayload) (s' : String) (l' n' : Nat)
    (h : demoJwt.sign p s l n = demoJwt.sign p' s' l' n') : n = n' := by
  have key : ∀ (a b : Nat) (r r' : List Char),
      List.replicate a 'i' ++ dot :: r = List.replicate b 'i' ++ dot :: r' → a = b := by
    intro a
    induction a with
    | zero =>
      intro b r r' hab
      cases b with
      | zero => rfl
      | succ b =>
        simp only [List.replicate, List.nil_append, List.cons_append, List.cons.injEq] at hab
        exact absurd hab.1 (by decide)
    | succ a ih =>
      intro b r r' hab
      cases b with
      | zero =>
        simp only [List.replicate, List.nil_append, List.cons_append, List.cons.injEq] at hab
        exact absurd hab.1 (by decide)
      | succ b =>
        simp only [List.replicate, List.cons_append, List.cons.injEq, true_and] at hab
        rw [ih b r r' hab]
  have hd := congrArg String.data h
  exact key _ _ _ _ hd

/-! ## Theorems on the refresh flow -/

/-- C2. `refreshToken` answers with success only if the presented value is a
token text that the codec verifies at the current time, whose subject is a
stored user, and that is textually the token stored for that user; and whenever
the session stored for the decoded user is absent or holds another text, the
answer is 403 and carries no token. -/
theorem refreshToken_success_only_if (ctx : Ctx) (now : Nat) (db : Database)
    (body : RefreshBody) :
    (∀ st b, (refreshToken ctx now db body).1 = .json st b → (st = 200 ∨ b.success = true) →
      ∃ t payload user row,
        body.refreshToken = .str t ∧
        ctx.jwt.verify (.str t) ctx.env.SECRET now = .ok ⟨some payload⟩ ∧
        usersTable_getById db payload.id = some user ∧
        refreshTable_get db user.id = some row ∧
        row.refreshToken = t) ∧
    ((∀ payload user,
        ctx.jwt.verify body.refreshToken ctx.env.SECRET now = .ok ⟨some payload⟩ →
        usersTable_getById db payload.id = some user →
        (refreshTable_get db user.id).map (fun r => JsVal.str r.refreshToken)
          ≠ some body.refreshToken) →
      ∃ m, (refreshToken ctx now db body).1
        = .json 403 { success := false, message := .text m,
                      accessToken := none, refreshToken := none }) := by
  rcases refreshToken_shape ctx now db body with ⟨m, hm⟩ | ⟨user, _, hc, hok⟩
  · refine ⟨?_, fun _ => ⟨m, by rw [hm]; rfl⟩⟩
    intro st b hb hs
    rw [hm] at hb
    simp only [responseObj, HttpResponse.json.injEq] at hb
    obtain ⟨hst, hbody⟩ := hb
    subst hst hbody
    simp at hs
  · obtain ⟨payload, row, hv, hu, hr, hEq⟩ :=
      (refreshChecks_ok_iff ctx now db body.refreshToken user).mp hc
    refine ⟨fun _ _ _ _ => ⟨row.refreshToken, payload, user, row, hEq.symm, ?_, hu, hr, rfl⟩, ?_⟩
    · rw [hEq]; exact hv
    · intro habs
      exact absurd (by rw [hr]; simp [hEq]) (habs payload user hv hu)

/-- Witness of C2: a superseded token is answered 403 without tokens. -/
theorem refreshToken_success_only_if_witness :
    ∃ m, (refreshToken demoCtx 3
            (refreshToken demoCtx 2 loggedIn ⟨.str firstRefreshToken⟩).2
            ⟨.str firstRefreshToken⟩).1
      = .json 403 { success := false, message := .text m,
                    accessToken := none, refreshToken := none } :=
  (refreshToken_success_only_if demoCtx 3
      (refreshToken demoCtx 2 loggedIn ⟨.str firstRefreshToken⟩).2
      ⟨.str firstRefreshToken⟩).2 (by
    intro payload user hv hu
    have hv1 : demoCtx.jwt.verify (.str firstRefreshToken) demoCtx.env.SECRET 3
        = .ok ⟨some alice⟩ := by decide
    have hp : alice = payload := by
      have h2 := hv1.symm.trans hv
      injection h2 with h2
      injection h2 with h2
      injection h2
    subst hp
    have hu1 : usersTable_getById
        (refreshToken demoCtx 2 loggedIn ⟨.str firstRefreshToken⟩).2 alice.id
        = some ⟨1, .str "a@x.com", .hash "salt$longpassword1"⟩ := by decide
    have hq : (⟨1, .str "a@x.com", .hash "salt$longpassword1"⟩ : User) = user := by
      have h2 := hu1.symm.trans hu
      injection h2
    subst hq
    decide)

/-- C6. A refresh request that is rejected with status 403 leaves the user table
and the refresh-session store exactly as they were. -/
theorem refreshToken_rejected_keeps_store (ctx : Ctx) (now : Nat) (db : Database)
    (body : RefreshBody) (b : ResponseObj)
    (h : (refreshToken ctx now db body).1 = .json 403 b) :
    (refreshToken ctx now db body).2 = db := by
  rcases refreshToken_shape ctx now db body with ⟨m, hm⟩ | ⟨user, _, _, hok⟩
  · rw [hm]
  · rw [hok] at h
    simp at h

/-- Witness of C6: a superseded token is rejected and the rotated session stays. -/
theorem refreshToken_rejected_keeps_store_witness :
    (refreshToken demoCtx 3
        (refreshToken demoCtx 2 loggedIn ⟨.str firstRefreshToken⟩).2
        ⟨.str firstRefreshToken⟩).1
      = .json 403 (responseObj false (.text "Refresh token is wrong")) ∧
    (refreshToken demoCtx 3
        (refreshToken demoCtx 2 loggedIn ⟨.str firstRefreshToken⟩).2
        ⟨.str firstRefreshToken⟩).2
      = (refreshToken demoCtx 2 loggedIn ⟨.str firstRefreshToken⟩).2 :=
  ⟨by decide,
   refreshToken_rejected_keeps_store demoCtx 3
     (refreshToken demoCtx 2 loggedIn ⟨.str firstRefreshToken⟩).2
     ⟨.str firstRefreshToken⟩ (responseObj false (.text "Refresh token is wrong")) (by decide)⟩


/-- C9 as stated fails: a malformed token and an expired token both fail
verification, and `refreshToken` answers them with different messages. -/
theorem refreshToken_verify_failures_differ :
    ¬ ∀ (ctx : Ctx) (now : Nat) (db : Database) (t1 t2 : JsVal) (m1 m2 : String),
        ctx.jwt.verify t1 ctx.env.SECRET now = .error m1 →
        ctx.jwt.verify t2 ctx.env.SECRET now = .error m2 →
        (refreshToken ctx now db ⟨t1⟩).1 = (refreshToken ctx now db ⟨t2⟩).1 := by
  intro h
  have h1 := h demoCtx 20 loggedIn (.str "abc123") (.str firstRefreshToken)
    "jwt malformed" "jwt expired" (by decide) (by decide)
  revert h1
  decide

/-- C9, amended. A presented token that fails verification is answered 403 with
`success = false`, no tokens and, as message, the message of the verification
error; the database is left alone. Two such tokens get the same answer exactly
when the codec reports the same message for both. -/
theorem refreshToken_verify_failure_message (ctx : Ctx) (now : Nat) (db : Database)
    (t1 t2 : JsVal) (m1 m2 : String)
    (h1 : t1.truthy = true) (h2 : t2.truthy = true)
    (hv1 : ctx.jwt.verify t1 ctx.env.SECRET now = .error m1)
    (hv2 : ctx.jwt.verify t2 ctx.env.SECRET now = .error m2) :
    refreshToken ctx now db ⟨t1⟩
      = (.json 403 { success := false, message := .text m1,
                     accessToken := none, refreshToken := none }, db) ∧
    refreshToken ctx now db ⟨t2⟩
      = (.json 403 { success := false, message := .text m2,
                     accessToken := none, refreshToken := none }, db) ∧
    ((refreshToken ctx now db ⟨t1⟩).1 = (refreshToken ctx now db ⟨t2⟩).1 ↔ m1 = m2) := by
  have e1 : refreshChecks ctx now db t1 = .error m1 := by simp [refreshChecks, hv1]
  have e2 : refreshChecks ctx now db t2 = .error m2 := by simp [refreshChecks, hv2]
  have r1 := refreshToken_of_error ctx now db ⟨t1⟩ m1 h1 e1
  have r2 := refreshToken_of_error ctx now db ⟨t2⟩ m2 h2 e2
  refine ⟨r1, r2, ?_⟩
  rw [r1, r2]
  simp [responseObj]

/-- Witness of the amended C9: a malformed and an expired token. -/
theorem refreshToken_verify_failure_message_witness :
    refreshToken demoCtx 20 loggedIn ⟨.str "abc123"⟩
      = (.json 403 { success := false, message := .text "jwt malformed",
                     accessToken := none, refreshToken := none }, loggedIn) ∧
    refreshToken demoCtx 20 loggedIn ⟨.str firstRefreshToken⟩
      = (.json 403 { success := false, message := .text "jwt expired",
                     accessToken := none, refreshToken := none }, loggedIn) ∧
    ((refreshToken demoCtx 20 loggedIn ⟨.str "abc123"⟩).1
        = (refreshToken demoCtx 20 loggedIn ⟨.str firstRefreshToken⟩).1
      ↔ "jwt malformed" = "jwt expired") :=
  refreshToken_verify_failure_message demoCtx 20 loggedIn (.str "abc123")
    (.str firstRefreshToken) "jwt malformed" "jwt expired"
    (by decide) (by decide) (by decide) (by decide)

/-- C1 as stated fails: a refresh handled in the clock second in which the
tokens were issued returns the very same access token and refresh token. -/
theorem refreshToken_same_second_same_tokens :
    login demoCtx 1 oneUser ⟨.str "a@x.com", .str "longpassword1"⟩
      = (.json 200 { success := true, message := .user alice,
                     accessToken := some "i.eeeeee.u.k.a@x.com",
                     refreshToken := some "i.eeeeeeeeee.u.k.a@x.com" }, loggedIn) ∧
    (refreshToken demoCtx 1 loggedIn ⟨.str "i.eeeeeeeeee.u.k.a@x.com"⟩).1
      = .json 200 { success := true, message := .text "",
                    accessToken := some "i.eeeeee.u.k.a@x.com",
                    refreshToken := some "i.eeeeeeeeee.u.k.a@x.com" } := by
  decide

/-- C1, amended. For a codec that embeds the issue time in the token text, a
refresh request whose token is present, verifies, and is the text stored for
its user is answered with an access token and a refresh token signed at the
current second; both differ from every token signed at another second, and the
session found for the user afterwards holds exactly the new refresh token. -/
theorem refreshToken_rotates (ctx : Ctx) (now : Nat) (db : Database) (t : String)
    (payload : UserPayload) (user : User) (row : RefreshRow)
    (hpresent : t ≠ "")
    (hverify : ctx.jwt.verify (.str t) ctx.env.SECRET now = .ok ⟨some payload⟩)
    (huser : usersTable_getById db payload.id = some user)
    (hrow : refreshTable_get db user.id = some row)
    (hstored : row.refreshToken = t)
    (hstamp : ∀ p s l n p' s' l' n',
      ctx.jwt.sign p s l n = ctx.jwt.sign p' s' l' n' → n = n') :
    ∃ a r,
      (refreshToken ctx now db ⟨.str t⟩).1
        = .json 200 { success := true, message := .text "",
                      accessToken := some a, refreshToken := some r } ∧
      a = getAccessToken ctx now ⟨user.id, user.email⟩ ∧
      r = ctx.jwt.sign ⟨user.id, user.email⟩ ctx.env.SECRET ctx.env.REFRESH_TOKEN_LIFE now ∧
      (∀ old p s l n, old = ctx.jwt.sign p s l n → n ≠ now → a ≠ old ∧ r ≠ old) ∧
      refreshTable_get (refreshToken ctx now db ⟨.str t⟩).2 user.id
        = some { userId := row.userId, refreshToken := r } := by
  have ht : (JsVal.str t).truthy = true := by simp [JsVal.truthy, hpresent]
  have hc : refreshChecks ctx now db (.str t) = .ok user :=
    (refreshChecks_ok_iff ctx now db (.str t) user).mpr
      ⟨payload, row, hverify, huser, hrow, by rw [hstored]⟩
  have hok := refreshToken_of_ok ctx now db ⟨.str t⟩ user ht hc
  refine ⟨_, _, by rw [hok], rfl, rfl, ?_, ?_⟩
  · intro old p s l n hold hn
    subst hold
    constructor
    · intro hEq
      exact hn (hstamp _ _ _ _ _ _ _ _ hEq).symm
    · intro hEq
      exact hn (hstamp _ _ _ _ _ _ _ _ hEq).symm
  · rw [hok]
    simp only
    rw [refreshTable_get_update, hrow]
    simp [hstored]

/-- Witness of the amended C1: the token issued at second 1 is refreshed at
second 2. -/
theorem refreshToken_rotates_witness :
    ∃ a r,
      (refreshToken demoCtx 2 loggedIn ⟨.str firstRefreshToken⟩).1
        = .json 200 { success := true, message := .text "",
                      accessToken := some a, refreshToken := some r } ∧
      a = getAccessToken demoCtx 2 ⟨1, .str "a@x.com"⟩ ∧
      r = demoCtx.jwt.sign ⟨1, .str "a@x.com"⟩ demoCtx.env.SECRET
            demoCtx.env.REFRESH_TOKEN_LIFE 2 ∧
      (∀ old p s l n, old = demoCtx.jwt.sign p s l n → n ≠ 2 → a ≠ old ∧ r ≠ old) ∧
      refreshTable_get (refreshToken demoCtx 2 loggedIn ⟨.str firstRefreshToken⟩).2 1
        = some { userId := 1, refreshToken := r } :=
  refreshToken_rotates demoCtx 2 loggedIn firstRefreshToken alice
    ⟨1, .str "a@x.com", .hash "salt$longpassword1"⟩ ⟨1, firstRefreshToken⟩
    (by decide) (by decide) (by decide) (by decide) rfl demoSign_stamped


/-! ## One session per user -/

/-- Deleting the sessions of a user leaves that user none and every other user
the sessions held before. -/
theorem sessionsOf_deleteById (db : Database) (userId id : Nat) :
    sessionsOf (refreshTable_deleteById db userId) id
      = if id = userId then [] else sessionsOf db id := by
  unfold sessionsOf refreshTable_deleteById
  simp only [List.filter_filter]
  by_cases h : id = userId
  · subst h
    simp
  · rw [if_neg h]
    apply List.filter_congr
    intro r _
    by_cases hr : r.userId = id
    · simp [hr, h]
    · simp [hr]

/-- Adding a session appends it to the sessions of its user only. -/
theorem sessionsOf_add (db : Database) (userId : Nat) (token : String) (id : Nat) :
    sessionsOf (refreshTable_add db userId token) id
      = sessionsOf db id ++ (if id = userId then [⟨userId, token⟩] else []) := by
  unfold sessionsOf refreshTable_add
  by_cases h : id = userId
  · subst h
    simp [List.filter_append]
  · have h2 : ¬ userId = id := fun e => h e.symm
    simp [List.filter_append, h, h2]

/-- Replacing a token text keeps the number of sessions of every user. -/
theorem sessionsOf_update_length (db : Database) (token : JsVal) (newToken : String)
    (id : Nat) :
    (sessionsOf (refreshTable_update db token newToken) id).length
      = (sessionsOf db id).length := by
  unfold sessionsOf refreshTable_update
  simp only
  induction db.refreshTable with
  | nil => rfl
  | cons r rs ih =>
    by_cases hu : r.userId = id
    · by_cases hr : JsVal.str r.refreshToken = token
      · simp [List.filter, hr, hu, ih]
      · simp [List.filter, hr, hu, ih]
    · have hb : (r.userId == id) = false := by simp [hu]
      by_cases hr : JsVal.str r.refreshToken = token
      · simp only [List.map, List.filter, hr, if_true, hb, ih]
      · simp only [List.map, List.filter, hr, if_false, hb, ih]

/-- After `getRefreshToken` the user has exactly the session just issued, and
every other user the sessions held before. -/
theorem sessionsOf_getRefreshToken (ctx : Ctx) (now : Nat) (db : Database)
    (payload : UserPayload) (id : Nat) :
    sessionsOf (getRefreshToken ctx now db payload).2 id
      = if id = payload.id then [⟨payload.id, (getRefreshToken ctx now db payload).1⟩]
        else sessionsOf db id := by
  simp only [getRefreshToken]
  rw [sessionsOf_add, sessionsOf_deleteById]
  by_cases h : id = payload.id
  · simp [h]
  · simp [h]

/-- Inserting a user does not touch the refresh table. -/
theorem usersTable_add_refreshTable (db : Database) (entry : UserEntry)
    (u : UserPayload) (db1 : Database)
    (h : usersTable_add db entry = .ok (u, db1)) :
    db1.refreshTable = db.refreshTable := by
  unfold usersTable_add at h
  split at h
  · simp at h
  · simp only [Except.ok.injEq, Prod.mk.injEq] at h
    rw [← h.2]

/-- The function `tryRegister` does not touch the refresh table. -/
theorem tryRegister_refreshTable (ctx : Ctx) (db : Database) (body : RegisterBody) :
    (tryRegister ctx db body).2.refreshTable = db.refreshTable := by
  unfold tryRegister
  split
  · rfl
  · split
    · rfl
    · split
      · rfl
      · rfl
      · split
        · rfl
        · split
          · rfl
          · simp only
            split
            · rename_i addedUser db1 hadd
              exact usersTable_add_refreshTable _ _ _ _ hadd
            · rfl

/-- Every operation keeps the bound of one session per user. -/
theorem handle_preserves (ctx : Ctx) (db : Database) (now : Nat) (req : Request)
    (h : ∀ id, (sessionsOf db id).length ≤ 1) :
    ∀ id, (sessionsOf (handle ctx db now req) id).length ≤ 1 := by
  intro id
  cases req with
  | register body =>
    have e : (register ctx db body).2.refreshTable = db.refreshTable := by
      have := tryRegister_refreshTable ctx db body
      unfold register
      split
      · split <;> simp_all
      · simp_all
    simp only [handle, sessionsOf, e]
    exact h id
  | login body =>
    simp only [handle, login]
    split
    · split
      · simp only
        rw [sessionsOf_getRefreshToken]
        split
        · simp
        · exact h id
      · exact h id
    · exact h id
  | issue payload =>
    simp only [handle]
    rw [sessionsOf_getRefreshToken]
    split
    · simp
    · exact h id
  | refresh body =>
    simp only [handle]
    rcases refreshToken_shape ctx now db body with ⟨m, hm⟩ | ⟨user, _, _, hok⟩
    · rw [hm]
      exact h id
    · rw [hok]
      simp only
      rw [sessionsOf_update_length]
      exact h id
  | logout user =>
    simp only [handle, logout]
    rw [sessionsOf_deleteById]
    split
    · simp
    · exact h id

/-- C3. In every state reached from an empty refresh store by registrations,
logins, calls of `getRefreshToken`, refreshes and logouts, each user id has at
most one stored refresh session; and after `getRefreshToken` is called for a
user, once or twice in a row, that user has exactly one stored session, whose
token is the one returned by the most recent call. -/
theorem one_session_per_user (ctx : Ctx) (users : List User) (trace : List (Nat × Request)) :
    (∀ id, (sessionsOf (run ctx ⟨users, []⟩ trace) id).length ≤ 1) ∧
    (∀ now payload,
      sessionsOf (getRefreshToken ctx now (run ctx ⟨users, []⟩ trace) payload).2 payload.id
        = [⟨payload.id, (getRefreshToken ctx now (run ctx ⟨users, []⟩ trace) payload).1⟩]) ∧
    (∀ now now2 payload,
      sessionsOf (getRefreshToken ctx now2
          (getRefreshToken ctx now (run ctx ⟨users, []⟩ trace) payload).2 payload).2 payload.id
        = [⟨payload.id, (getRefreshToken ctx now2
            (getRefreshToken ctx now (run ctx ⟨users, []⟩ trace) payload).2 payload).1⟩]) := by
  refine ⟨?_, ?_, ?_⟩
  · have gen : ∀ (tr : List (Nat × Request)) (db : Database),
        (∀ id, (sessionsOf db id).length ≤ 1) →
        ∀ id, (sessionsOf (run ctx db tr) id).length ≤ 1 := by
      intro tr
      induction tr with
      | nil => intro db hdb; exact hdb
      | cons step rest ih =>
        intro db hdb
        exact ih (handle ctx db step.1 step.2) (handle_preserves ctx db step.1 step.2 hdb)
    exact gen trace ⟨users, []⟩ (fun id => by simp [sessionsOf])
  · intro now payload
    rw [sessionsOf_getRefreshToken, if_pos rfl]
  · intro now now2 payload
    rw [sessionsOf_getRefreshToken, if_pos rfl]

/-! ## Registration -/

/-- Validation of `tryRegister`, in the order of the source: each failure is
returned as a result that leaves the database alone, except that a `null`
password makes the length check throw. -/
theorem tryRegister_validation (ctx : Ctx) (db : Database) (user : RegisterBody) :
    ((user.email = .undefined ∨ user.password = .undefined
        ∨ user.passwordConfirmation = .undefined) →
      tryRegister ctx db user
        = (.ok (responseObj false (.text "API Error - expected fields are undefined!")), db)) ∧
    (¬ (user.email = .undefined ∨ user.password = .undefined
        ∨ user.passwordConfirmation = .undefined) →
      (emailTest user.email = false →
        tryRegister ctx db user
          = (.ok (responseObj false (.text "Invalid email format!")), db)) ∧
      (emailTest user.email = true →
        (user.password = .null →
          tryRegister ctx db user = (.error (ctx.rt.typeErrorMessage "length"), db)) ∧
        (∀ s, user.password = .str s → jsLength s < 8 →
          tryRegister ctx db user
            = (.ok (responseObj false
                (.text "Password must be at least 8 characters long!")), db)) ∧
        (passwordTooShort ctx.rt user.password = .ok false →
          looseEq ctx.rt.stringToNumber user.password user.passwordConfirmation = false →
          tryRegister ctx db user
            = (.ok (responseObj false (.text "Passwords do not match!")), db)))) := by
  refine ⟨fun h => ?_, fun h => ⟨fun he => ?_, fun he => ⟨?_, ?_, ?_⟩⟩⟩
  · unfold tryRegister
    rw [if_pos h]
  · unfold tryRegister
    rw [if_neg h]
    simp [he]
  · intro hp
    unfold tryRegister
    rw [if_neg h]
    simp [he, hp, passwordTooShort]
  · intro s hp hs
    unfold tryRegister
    rw [if_neg h]
    simp [he, hp, passwordTooShort, hs]
  · intro hl hc
    unfold tryRegister
    rw [if_neg h]
    simp [he, hl, hc]

/-- C4 fails on the code: for a well-formed email and a `null` password the
length check throws; `tryRegister` is rejected with the `TypeError` instead of
returning a failure result, and `register` answers 501. -/
theorem tryRegister_null_password_throws :
    tryRegister demoCtx oneUser ⟨.str "b@x.com", .null, .str "longpassword1"⟩
      = (.error (demoRuntime.typeErrorMessage "length"), oneUser) ∧
    register demoCtx oneUser ⟨.str "b@x.com", .null, .str "longpassword1"⟩
      = (.sendStatus 501, oneUser) := by
  decide

/-- When the four checks pass and salt generation succeeds, `tryRegister` goes
on to the insert whether or not hashing succeeded: its result is the created
identity or the duplicate-email failure, and never another failure. -/
theorem tryRegister_after_validation (ctx : Ctx) (db : Database) (user : RegisterBody)
    (salt : String)
    (hemail : emailTest user.email = true)
    (hlen : passwordTooShort ctx.rt user.password = .ok false)
    (hconf : looseEq ctx.rt.stringToNumber user.password user.passwordConfirmation = true)
    (hsalt : ctx.bcrypt.genSalt 10 = .ok salt) :
    tryRegister ctx db user =
      match usersTable_add db
          { email := user.email,
            password := hashOrCaught (ctx.bcrypt.hash user.password salt) } with
      | .ok (addedUser, db1) => (.ok (responseObj true (.user addedUser)), db1)
      | .error _ => (.ok (responseObj false (.text "Email already exists!")), db) := by
  have h1 : user.email ≠ .undefined := by
    intro h
    rw [h] at hemail
    revert hemail
    decide
  have h2 : user.password ≠ .undefined := by
    intro h
    rw [h] at hlen
    simp [passwordTooShort] at hlen
  have h3 : user.passwordConfirmation ≠ .undefined := by
    intro h
    rw [h] at hconf
    cases hp : user.password with
    | undefined => exact h2 hp
    | null => rw [hp] at hlen; simp [passwordTooShort] at hlen
    | bool b => rw [hp] at hconf; simp [looseEq] at hconf
    | num n => rw [hp] at hconf; simp [looseEq] at hconf
    | str s => rw [hp] at hconf; simp [looseEq] at hconf
  simp only [tryRegister, h1, h2, h3, or_self, if_false, hemail, hlen, hconf, hsalt,
    Bool.not_true, Bool.false_eq_true]

/-- C7 fails on the code: the checks pass, `bcrypt.hash` is rejected, and
`tryRegister` still inserts the user, with the response object of the `catch`
handler as password, and reports success. -/
theorem tryRegister_hash_rejected_adds_user :
    demoCtx.bcrypt.hash (.num 12345678) "salt" = .error "Illegal arguments" ∧
    tryRegister demoCtx oneUser ⟨.str "b@x.com", .num 12345678, .num 12345678⟩
      = (.ok (responseObj true (.user ⟨2, .str "b@x.com"⟩)),
         { usersTable :=
             [⟨1, .str "a@x.com", .hash "salt$longpassword1"⟩,
              ⟨2, .str "b@x.com", .failureObject⟩],
           refreshTable := [] }) := by
  decide

/-- C8 as stated fails: a second registration with a stored email and a short
password is answered with the weak-password message, not the duplicate-email
message. -/
theorem tryRegister_duplicate_short_password :
    usersTable_getByEmail oneUser (.str "a@x.com")
      = some ⟨1, .str "a@x.com", .hash "salt$longpassword1"⟩ ∧
    tryRegister demoCtx oneUser ⟨.str "a@x.com", .str "short", .str "short"⟩
      = (.ok (responseObj false (.text "Password must be at least 8 characters long!")),
         oneUser) := by
  decide

/-- C8, amended. A registration with an email that a stored user holds, and
with a password and confirmation that pass the validation checks, fails with
the message "Email already exists!" and adds no user. -/
theorem tryRegister_duplicate_email (ctx : Ctx) (db : Database) (user : RegisterBody)
    (existing : User) (salt : String)
    (hdup : usersTable_getByEmail db user.email = some existing)
    (hemail : emailTest user.email = true)
    (hlen : passwordTooShort ctx.rt user.password = .ok false)
    (hconf : looseEq ctx.rt.stringToNumber user.password user.passwordConfirmation = true)
    (hsalt : ctx.bcrypt.genSalt 10 = .ok salt) :
    tryRegister ctx db user
      = (.ok (responseObj false (.text "Email already exists!")), db) := by
  rw [tryRegister_after_validation ctx db user salt hemail hlen hconf hsalt]
  simp [usersTable_add, hdup]

/-- Witness of the amended C8: the stored email with another valid password. -/
theorem tryRegister_duplicate_email_witness :
    tryRegister demoCtx oneUser ⟨.str "a@x.com", .str "otherpassword", .str "otherpassword"⟩
      = (.ok (responseObj false (.text "Email already exists!")), oneUser) :=
  tryRegister_duplicate_email demoCtx oneUser
    ⟨.str "a@x.com", .str "otherpassword", .str "otherpassword"⟩
    ⟨1, .str "a@x.com", .hash "salt$longpassword1"⟩ "salt"
    (by decide) (by decide) (by decide) (by decide) (by decide)

/-- Whatever the password, a registration with a stored email never adds a user. -/
theorem tryRegister_duplicate_keeps_store (ctx : Ctx) (db : Database) (user : RegisterBody)
    (existing : User)
    (hdup : usersTable_getByEmail db user.email = some existing) :
    (tryRegister ctx db user).2 = db := by
  unfold tryRegister
  split
  · rfl
  · split
    · rfl
    · split
      · rfl
      · rfl
      · split
        · rfl
        · split
          · rfl
          · simp [usersTable_add, hdup]

/-! ## Authentication -/

/-- The result of `tryAuthenticate` when both fields are present: the identity
of the stored user unless `bcrypt.compare` resolved to `false`, and one fixed
message when the email is unknown or the comparison resolved to `false`. -/
theorem tryAuthenticate_result (ctx : Ctx) (db : Database) (user : LoginBody)
    (he : user.email ≠ .undefined) (hp : user.password ≠ .undefined) :
    (usersTable_getByEmail db user.email = none →
      tryAuthenticate ctx db user
        = responseObj false (.text "Email and/or password is incorrect!")) ∧
    (∀ u, usersTable_getByEmail db user.email = some u →
      (ctx.bcrypt.compare user.password u.password = .ok false →
        tryAuthenticate ctx db user
          = responseObj false (.text "Email and/or password is incorrect!")) ∧
      (ctx.bcrypt.compare user.password u.password = .ok true →
        tryAuthenticate ctx db user = responseObj true (.user ⟨u.id, u.email⟩)) ∧
      (∀ e, ctx.bcrypt.compare user.password u.password = .error e →
        tryAuthenticate ctx db user = responseObj true (.user ⟨u.id, u.email⟩))) := by
  refine ⟨fun h => by simp [tryAuthenticate, he, hp, h], fun u hu => ⟨?_, ?_, ?_⟩⟩
  · intro hc
    simp [tryAuthenticate, he, hp, hu, hc]
  · intro hc
    simp [tryAuthenticate, he, hp, hu, hc]
  · intro e hc
    simp [tryAuthenticate, he, hp, hu, hc]

/-- C5 fails on the code: a login for a stored email with a number as password
makes `bcrypt.compare` fail, and the request is answered with success, the
identity of the user and a pair of tokens. -/
theorem tryAuthenticate_compare_rejected_succeeds :
    demoCtx.bcrypt.compare (.num 12345) (.hash "salt$longpassword1")
      = .error "Illegal arguments" ∧
    tryAuthenticate demoCtx oneUser ⟨.str "a@x.com", .num 12345⟩
      = responseObj true (.user alice) ∧
    login demoCtx 1 oneUser ⟨.str "a@x.com", .num 12345⟩
      = (.json 200 { success := true, message := .user alice,
                     accessToken := some "i.eeeeee.u.k.a@x.com",
                     refreshToken := some "i.eeeeeeeeee.u.k.a@x.com" }, loggedIn) := by
  decide

/-! ## Access verification -/

/-- The function `verifyToken` resolves with a user exactly when the header
starts with the six characters `Bearer` and the text after its first seven
characters verifies with that user as subject. -/
theorem verifyToken_ok_iff (ctx : Ctx) (now : Nat) (header : String) (u : UserPayload) :
    verifyToken ctx now header = .ok u ↔
      "Bearer".toList.isPrefixOf header.toList = true ∧
      ctx.jwt.verify (.str (slice7 header)) ctx.env.SECRET now = .ok ⟨some u⟩ := by
  unfold verifyToken
  cases hb : "Bearer".toList.isPrefixOf header.toList with
  | false => simp
  | true =>
    cases hv : ctx.jwt.verify (.str (slice7 header)) ctx.env.SECRET now with
    | error m => simp
    | ok decoded =>
      obtain ⟨du⟩ := decoded
      cases du with
      | none => simp
      | some user => simp

/-- C10 fails on the code: a header that starts with `Bearer` followed by a
character other than a space is accepted, since only the six letters are
checked before seven characters are cut off. -/
theorem verifyToken_accepts_without_space :
    "Bearer ".toList.isPrefixOf "BearerXi.eeeeee.u.k.a@x.com".toList = false ∧
    getAccessToken demoCtx 1 alice = "i.eeeeee.u.k.a@x.com" ∧
    verifyToken demoCtx 3 "BearerXi.eeeeee.u.k.a@x.com" = .ok alice ∧
    authenticateToken demoCtx 3 (some "BearerXi.eeeeee.u.k.a@x.com") = .next alice := by
  decide

end AuthController
